import Mathlib

/-!
Shallow embedding of the two upload pipelines of this repository
(`send_image.py` and `send_video.py`).  Byte strings are modelled as
`List Nat` (each entry a byte value); Python string constants are turned
into their byte lists with `ascii`.  Network traffic is modelled by
request-description values: a function that would issue a network call
returns a `post` value carrying the request it would send, while a local
short-circuit returns `localFail` with the result code.
-/

/-- Byte list of an ASCII string constant. -/
def ascii (s : String) : List Nat := s.data.map Char.toNat

/-- Python slice `data[a:b]` (clamping, never failing). -/
def pySlice (data : List Nat) (a b : Nat) : List Nat :=
  (data.drop a).take (b - a)

/-- struct.unpack of a big-endian unsigned 32-bit integer: fails (raises
struct.error, modelled as `none`) unless given exactly four bytes. -/
def be32 : List Nat → Option Nat
  | [b0, b1, b2, b3] => some (((b0 * 256 + b1) * 256 + b2) * 256 + b3)
  | _ => none

/-- Python bytes.find: index of the first occurrence of `pat`, `none` when
absent (Python returns -1). -/
def findSubstr (pat : List Nat) : List Nat → Option Nat
  | [] => if pat.isEmpty then some 0 else none
  | x :: t =>
    if pat.isPrefixOf (x :: t) then some 0
    else (findSubstr pat t).map (· + 1)

/-- Substring test over byte lists. -/
def isSub (pat : List Nat) : List Nat → Bool
  | [] => pat.isEmpty
  | x :: t => pat.isPrefixOf (x :: t) || isSub pat t

/-- Split a byte list on a separator byte (list of fields, like
str.split). -/
def splitOnByte (c : Nat) : List Nat → List (List Nat)
  | [] => [[]]
  | x :: xs =>
    let r := splitOnByte c xs
    if x = c then [] :: r
    else
      match r with
      | [] => [[x]]
      | h :: t => (x :: h) :: t

/-- os.path.basename: the part after the last slash. -/
def basenameB (p : List Nat) : List Nat :=
  (splitOnByte 47 p).getLastD []

/-- Join byte lines with CRLF, as the Python code joins the multipart
form lines. -/
def joinCRLF (lines : List (List Nat)) : List Nat :=
  List.intercalate [13, 10] lines

/-! ### Base64 (RFC 4648, the semantics of the base64 stdlib module) -/

/-- Alphabet character of a 6-bit value. -/
def encChar (n : Nat) : Nat :=
  if n < 26 then 65 + n
  else if n < 52 then 97 + (n - 26)
  else if n < 62 then 48 + (n - 52)
  else if n = 62 then 43
  else 47

/-- Inverse of `encChar` on the alphabet. -/
def decChar (c : Nat) : Nat :=
  if 65 ≤ c ∧ c ≤ 90 then c - 65
  else if 97 ≤ c ∧ c ≤ 122 then 26 + (c - 97)
  else if 48 ≤ c ∧ c ≤ 57 then 52 + (c - 48)
  else if c = 43 then 62
  else 63

/-- base64.b64encode on a byte list (61 is the pad character). -/
def b64encode : List Nat → List Nat
  | b0 :: b1 :: b2 :: rest =>
    encChar (b0 / 4) :: encChar ((b0 % 4) * 16 + b1 / 16) ::
    encChar ((b1 % 16) * 4 + b2 / 64) :: encChar (b2 % 64) :: b64encode rest
  | [b0, b1] =>
    [encChar (b0 / 4), encChar ((b0 % 4) * 16 + b1 / 16),
     encChar ((b1 % 16) * 4), 61]
  | [b0] =>
    [encChar (b0 / 4), encChar ((b0 % 4) * 16), 61, 61]
  | [] => []

/-- base64.b64decode on a byte list produced by the encoder. -/
def b64decode : List Nat → List Nat
  | c0 :: c1 :: c2 :: c3 :: rest =>
    if c2 = 61 then [decChar c0 * 4 + decChar c1 / 16]
    else if c3 = 61 then
      [decChar c0 * 4 + decChar c1 / 16,
       (decChar c1 % 16) * 16 + decChar c2 / 4]
    else
      (decChar c0 * 4 + decChar c1 / 16) ::
      ((decChar c1 % 16) * 16 + decChar c2 / 4) ::
      ((decChar c2 % 4) * 64 + decChar c3) :: b64decode rest
  | _ => []

/-- A byte list is a genuine Python bytes value: every entry below 256. -/
def validBytes (p : List Nat) : Prop := ∀ b ∈ p, b < 256

instance : DecidablePred validBytes := fun p =>
  inferInstanceAs (Decidable (∀ b ∈ p, b < 256))

theorem decChar_encChar {n : Nat} (h : n < 64) : decChar (encChar n) = n := by
  revert h
  revert n
  decide

theorem encChar_ne_pad {n : Nat} (h : n < 64) : encChar n ≠ 61 := by
  revert h
  revert n
  decide

theorem b64_roundtrip : ∀ p : List Nat, validBytes p → b64decode (b64encode p) = p
  | [], _ => rfl
  | [b0], h => by
    have hb0 : b0 < 256 := h b0 (by simp)
    have e1 := @decChar_encChar (b0 / 4) (by omega)
    have e2 := @decChar_encChar (b0 % 4 * 16) (by omega)
    simp only [b64encode, b64decode]
    simp only [if_true]
    rw [e1, e2]
    have h3 : b0 / 4 * 4 + b0 % 4 * 16 / 16 = b0 := by omega
    rw [h3]
  | [b0, b1], h => by
    have hb0 : b0 < 256 := h b0 (by simp)
    have hb1 : b1 < 256 := h b1 (by simp)
    have e1 := @decChar_encChar (b0 / 4) (by omega)
    have e2 := @decChar_encChar (b0 % 4 * 16 + b1 / 16) (by omega)
    have e3 := @decChar_encChar (b1 % 16 * 4) (by omega)
    have hne := @encChar_ne_pad (b1 % 16 * 4) (by omega)
    simp only [b64encode, b64decode]
    rw [if_neg hne]
    simp only [if_true]
    rw [e1, e2, e3]
    have h3 : b0 / 4 * 4 + (b0 % 4 * 16 + b1 / 16) / 16 = b0 := by omega
    have h4 : (b0 % 4 * 16 + b1 / 16) % 16 * 16 + b1 % 16 * 4 / 4 = b1 := by omega
    rw [h3, h4]
  | b0 :: b1 :: b2 :: rest, h => by
    have hb0 : b0 < 256 := h b0 (by simp)
    have hb1 : b1 < 256 := h b1 (by simp)
    have hb2 : b2 < 256 := h b2 (by simp)
    have ih : b64decode (b64encode rest) = rest :=
      b64_roundtrip rest (fun b hb =>
        h b (List.mem_cons_of_mem _ (List.mem_cons_of_mem _
          (List.mem_cons_of_mem _ hb))))
    have e1 := @decChar_encChar (b0 / 4) (by omega)
    have e2 := @decChar_encChar (b0 % 4 * 16 + b1 / 16) (by omega)
    have e3 := @decChar_encChar (b1 % 16 * 4 + b2 / 64) (by omega)
    have e4 := @decChar_encChar (b2 % 64) (by omega)
    have hne3 := @encChar_ne_pad (b1 % 16 * 4 + b2 / 64) (by omega)
    have hne4 := @encChar_ne_pad (b2 % 64) (by omega)
    simp only [b64encode, b64decode]
    rw [if_neg hne3, if_neg hne4, e1, e2, e3, e4, ih]
    have h3 : b0 / 4 * 4 + (b0 % 4 * 16 + b1 / 16) / 16 = b0 := by omega
    have h4 : (b0 % 4 * 16 + b1 / 16) % 16 * 16 + (b1 % 16 * 4 + b2 / 64) / 4 = b1 := by
      omega
    have h5 : (b1 % 16 * 4 + b2 / 64) % 4 * 64 + b2 % 64 = b2 := by omega
    rw [h3, h4, h5]

example : b64decode (b64encode [137, 80, 78, 71, 13]) = [137, 80, 78, 71, 13] := by decide
example : basenameB (ascii "/a/b.png") = ascii "b.png" := by decide
example : findSubstr (ascii "vh") (ascii "mvhd") = some 1 := by decide

/-! ### File arguments and media inspection -/

/-- A file argument of the clients: raw bytes, or a base64 string (given
by its byte list). -/
inductive FileInput : Type
  | raw (b : List Nat)
  | b64 (s : List Nat)
deriving DecidableEq

/-- The bytes the uploader constructors work on: a base64 string argument
is decoded, raw bytes are kept (ImageUploader and VideoUploader init). -/
def decodeInput : FileInput → List Nat
  | .raw b => b
  | .b64 s => b64decode s

/-- The base64 form used by issue_resource_path: a bytes argument is
encoded, a string argument is used as given. -/
def b64Of : FileInput → List Nat
  | .raw b => b64encode b
  | .b64 s => s

/-- The movie-header marker bytes of b"mvhd". -/
def mvhdTag : List Nat := ascii "mvhd"

/-- VideoUploader._get_mp4_duration: find the first mvhd marker, read the
big-endian 32-bit timescale at offset +16 and duration at offset +20 from
the marker start, and return duration / timescale as an exact rational
(Python computes the same quotient in floating point).  A missing marker,
a truncated header (struct.error) and a zero timescale (ZeroDivisionError)
all land in the exception handler and yield 0. -/
def get_mp4_duration (data : List Nat) : Rat :=
  match findSubstr mvhdTag data with
  | none => 0
  | some pos =>
    match be32 (pySlice data (pos + 16) (pos + 20)),
          be32 (pySlice data (pos + 20) (pos + 24)) with
    | some ts, some dur => if ts = 0 then 0 else (dur : Rat) / (ts : Rat)
    | _, _ => 0

/-! ### Path issuance -/

/-- JSON body of the issueResourcePath POST.  The Python dict has a fixed
shape; an absent key (fileData in the video client) is modelled as none. -/
structure IssueBody where
  serviceId : String
  channelNo : Int
  filename : String
  filesize : Nat
  msgType : Nat
  channelType : Nat
  fileData : Option (List Nat)
deriving DecidableEq

/-- WorksImageAPI.issue_resource_path: a bytes argument is base64-encoded,
filesize is the length of the base64-decoded payload, msgType is 11, and
the base64 payload is sent as fileData. -/
def issue_resource_path_image (filename : String) (file_data : FileInput)
    (channel_no : Int) : IssueBody :=
  let fd := b64Of file_data
  { serviceId := "works"
    channelNo := channel_no
    filename := filename
    filesize := (b64decode fd).length
    msgType := 11
    channelType := 10
    fileData := some fd }

/-- WorksVideoAPI.issue_resource_path: like the image client, but msgType
is 14 and the body has no fileData field. -/
def issue_resource_path_video (filename : String) (file_data : FileInput)
    (channel_no : Int) : IssueBody :=
  let fd := b64Of file_data
  { serviceId := "works"
    channelNo := channel_no
    filename := filename
    filesize := (b64decode fd).length
    msgType := 14
    channelType := 10
    fileData := none }

/-! ### Multipart upload -/

/-- Boundary token of the image client. -/
def imageBoundary : List Nat := ascii "----WebKitFormBoundaryrdK6G1RVu5s3MxSA"

/-- Boundary token of the video client. -/
def videoBoundary : List Nat := ascii "----WebKitFormBoundaryIDpMEPWWgRoczkxm"

/-- The Content-Disposition header marker. -/
def cdMark : List Nat := ascii "Content-Disposition"

/-- A form line opens with a Content-Disposition header. -/
def cdPred (l : List Nat) : Bool := cdMark.isPrefixOf l

/-- Middle of the Content-Disposition line, between the marker and the
filename value. -/
def cdMid : List Nat := ascii ": form-data; name=\"file\"; filename=\""

/-- The form lines built by upload_file (the Python form list); joined
with CRLF they give the multipart body. -/
def mkForm (boundary bn ctype payload : List Nat) : List (List Nat) :=
  [ascii "--" ++ boundary,
   cdMark ++ cdMid ++ bn ++ ascii "\"",
   ascii "Content-Type: " ++ ctype,
   [],
   payload,
   ascii "--" ++ boundary ++ ascii "--"]

/-- The x-extras header object of the image upload. -/
structure ImageExtras where
  filesize : Nat
  filename : List Nat
  resourcepath : List Nat
  width : Nat
  height : Nat
deriving DecidableEq

/-- The x-extras header object of the video upload; recordtime is the
extracted duration in seconds. -/
structure VideoExtras where
  filesize : Nat
  filename : List Nat
  resourcepath : List Nat
  recordtime : Rat
deriving DecidableEq

/-- The storage POST issued by the image upload_file (the time-dependent
x-tid header is outside the model). -/
structure ImageReq where
  resourcePath : List Nat
  xType : Nat
  extras : ImageExtras
  boundary : List Nat
  form : List (List Nat)
  body : List Nat
  contentLength : Nat
deriving DecidableEq

/-- The storage POST issued by the video upload_file. -/
structure VideoReq where
  resourcePath : List Nat
  xType : Nat
  extras : VideoExtras
  boundary : List Nat
  form : List (List Nat)
  body : List Nat
  contentLength : Nat
deriving DecidableEq

/-- Request value built by the image upload_file once both gates have
passed: multipart body over the fixed boundary, filename taken from the
basename of the resource path, Content-Length set to the body length. -/
def mkImageReq (resource_path payload : List Nat) (width height : Nat) :
    ImageReq :=
  let bn := basenameB resource_path
  let form := mkForm imageBoundary bn (ascii "image/png") payload
  let body := joinCRLF form
  { resourcePath := resource_path
    xType := 11
    extras := ⟨payload.length, bn, resource_path, width, height⟩
    boundary := imageBoundary
    form := form
    body := body
    contentLength := body.length }

/-- Request value built by the video upload_file once the size gate has
passed. -/
def mkVideoReq (resource_path payload : List Nat) (recordtime : Rat) :
    VideoReq :=
  let bn := basenameB resource_path
  let form := mkForm videoBoundary bn (ascii "video/mp4") payload
  let body := joinCRLF form
  { resourcePath := resource_path
    xType := 14
    extras := ⟨payload.length, bn, resource_path, recordtime⟩
    boundary := videoBoundary
    form := form
    body := body
    contentLength := body.length }

/-- Result of upload_file before the network: either a local short-circuit
with a result code, or the POST it issues. -/
inductive UploadOutcome (α : Type) : Type
  | localFail (code : Int)
  | post (req : α)
deriving DecidableEq

/-- WorksImageAPI.upload_file up to the network call.  PIL dimension
extraction is an external library, passed as the dims parameter (dims
returns (0, 0) when PIL cannot decode the payload). -/
def upload_file_image (dims : List Nat → Nat × Nat) (resource_path : List Nat)
    (file_data : FileInput) : UploadOutcome ImageReq :=
  let d := decodeInput file_data
  if d.length = 0 then .localFail (-1)
  else
    let wh := dims d
    if wh.1 = 0 ∨ wh.2 = 0 then .localFail (-1)
    else .post (mkImageReq resource_path d wh.1 wh.2)

/-- WorksVideoAPI.upload_file up to the network call.  Only the empty-file
check gates the POST; the extracted duration goes into x-extras as
recordtime but is never checked. -/
def upload_file_video (resource_path : List Nat) (file_data : FileInput) :
    UploadOutcome VideoReq :=
  let d := decodeInput file_data
  if d.length = 0 then .localFail (-1)
  else .post (mkVideoReq resource_path d (get_mp4_duration d))

/-! ### Response handling and orchestration -/

/-- What the storage endpoint does with the upload POST, as seen by the
client: a JSON body with a result code, a non-JSON body with some HTTP
status, or a transport-level exception (timeout, connection failure). -/
inductive RespEvent : Type
  | jsonBody (code : Int)
  | nonJson (status : Nat)
  | transportErr
deriving DecidableEq

/-- The try/except around the POST in upload_file: a JSON body gives its
code, a JSON decode failure reports the literal HTTP status code, and a
requests exception reports -1. -/
def handleResp : RespEvent → Int
  | .jsonBody c => c
  | .nonJson s => (s : Int)
  | .transportErr => -1

/-- Result code of WorksImageAPI.upload_file: the local gates, then the
response handling of the POST. -/
def upload_result_image (dims : List Nat → Nat × Nat)
    (resource_path : List Nat) (file_data : FileInput) (ev : RespEvent) :
    Int :=
  match upload_file_image dims resource_path file_data with
  | .localFail c => c
  | .post _ => handleResp ev

/-- Result code of WorksVideoAPI.upload_file. -/
def upload_result_video (resource_path : List Nat) (file_data : FileInput)
    (ev : RespEvent) : Int :=
  match upload_file_video resource_path file_data with
  | .localFail c => c
  | .post _ => handleResp ev

/-- Outcome of the preflight OPTIONS call: an HTTP status code, or a
transport exception, which upload_file_options does not catch. -/
inductive PreflightResult : Type
  | status (n : Nat)
  | transportErr
deriving DecidableEq

/-- JSON response of issueResourcePath as read by main: an optional code
and the issued resource path. -/
structure IssueResp where
  code : Option Int
  resourcePath : List Nat
deriving DecidableEq

/-- Terminal outcome of a main run. -/
inductive RunOutcome : Type
  | emptyFile
  | pathFailed (code : Option Int)
  | crashed
  | completed (code : Int)
deriving DecidableEq

/-- Which network stages a main run reached, and how it ended. -/
structure RunTrace where
  calledPreflight : Bool
  calledUpload : Bool
  outcome : RunOutcome
deriving DecidableEq

/-- main of send_image.py as a function of its environment: the issued
path response, the preflight outcome, the PIL extractor, the payload read
from disk and the upload response.  A preflight transport exception
propagates out of upload_file_options uncaught, so such a run ends before
the upload POST. -/
def main_run_image (resp : IssueResp) (pf : PreflightResult)
    (dims : List Nat → Nat × Nat) (payload : List Nat) (ev : RespEvent) :
    RunTrace :=
  if payload.length = 0 then ⟨false, false, .emptyFile⟩
  else if resp.code = some 200 then
    match pf with
    | .transportErr => ⟨true, false, .crashed⟩
    | .status _ =>
      ⟨true, true,
       .completed (upload_result_image dims resp.resourcePath (.raw payload) ev)⟩
  else ⟨false, false, .pathFailed resp.code⟩

/-- main of send_video.py as a function of its environment. -/
def main_run_video (resp : IssueResp) (pf : PreflightResult)
    (payload : List Nat) (ev : RespEvent) : RunTrace :=
  if payload.length = 0 then ⟨false, false, .emptyFile⟩
  else if resp.code = some 200 then
    match pf with
    | .transportErr => ⟨true, false, .crashed⟩
    | .status _ =>
      ⟨true, true,
       .completed (upload_result_video resp.resourcePath (.raw payload) ev)⟩
  else ⟨false, false, .pathFailed resp.code⟩

/-! ### Helper lemmas -/

theorem isPrefixOf_append_self (l r : List Nat) :
    l.isPrefixOf (l ++ r) = true := by
  induction l with
  | nil => simp [List.isPrefixOf]
  | cons a t ih => simp [List.isPrefixOf, ih]

theorem mkForm_cd_count (boundary bn ctype payload : List Nat)
    (hb : cdPred (ascii "--" ++ boundary) = false)
    (hct : cdPred (ascii "Content-Type: " ++ ctype) = false)
    (hlast : cdPred (ascii "--" ++ (boundary ++ ascii "--")) = false)
    (hcd : cdPred payload = false) :
    (mkForm boundary bn ctype payload).countP cdPred = 1 ∧
    (mkForm boundary bn ctype payload).filter cdPred =
      [cdMark ++ cdMid ++ bn ++ ascii "\""] := by
  have h1 : cdPred (cdMark ++ (cdMid ++ (bn ++ ascii "\""))) = true := by
    simp [cdPred, isPrefixOf_append_self]
  have h3 : cdPred ([] : List Nat) = false := by decide
  constructor
  · simp [mkForm, List.countP_cons, hb, hct, hlast, hcd, h1, h3]
  · simp [mkForm, List.filter, hb, hct, hlast, hcd, h1, h3]

/-! ### Claims -/

/-- C1 counterexample: this non-empty video payload has no mvhd marker,
so its extracted duration is zero, yet WorksVideoAPI.upload_file does not
return a local-failure result: it issues the storage POST. -/
theorem c1_counterexample :
    get_mp4_duration [1, 2, 3] = 0 ∧
    upload_file_video (ascii "/abc") (.raw [1, 2, 3]) ≠
      UploadOutcome.localFail (-1) ∧
    (∃ req, upload_file_video (ascii "/abc") (.raw [1, 2, 3]) =
      UploadOutcome.post req) := by
  refine ⟨rfl, by decide, ⟨_, rfl⟩⟩

/-- C1 amended: a zero extracted duration does not gate the video upload
pipeline.  For every non-empty payload whose duration parses to zero,
WorksVideoAPI.upload_file still issues the storage POST, carrying
recordtime 0 inside x-extras; only the empty-payload check aborts
locally. -/
theorem c1_zero_duration_not_gated (resource_path p : List Nat)
    (hne : p ≠ []) (hdur : get_mp4_duration p = 0) :
    upload_file_video resource_path (.raw p) =
      .post (mkVideoReq resource_path p 0) ∧
    (mkVideoReq resource_path p 0).extras.recordtime = 0 := by
  refine ⟨?_, rfl⟩
  simp [upload_file_video, decodeInput, List.length_eq_zero, hne, hdur]

/-- C1 witness at a concrete input. -/
theorem c1_witness :
    ([1, 2, 3] : List Nat) ≠ [] ∧ get_mp4_duration [1, 2, 3] = 0 ∧
    upload_file_video (ascii "/vid") (.raw [1, 2, 3]) =
      .post (mkVideoReq (ascii "/vid") [1, 2, 3] 0) :=
  ⟨by decide, by rfl,
   (c1_zero_duration_not_gated (ascii "/vid") [1, 2, 3] (by decide) (by rfl)).1⟩

/-- C2: upload_file of either client returns result code -1 without a
network call exactly when the decoded payload is empty or, for the image
client, the extracted width or height is zero; in every other case the
storage POST is issued, so these are the only pre-network validation
gates. -/
theorem c2_validation_gates (dims : List Nat → Nat × Nat)
    (resource_path : List Nat) (file_data : FileInput) :
    (upload_file_image dims resource_path file_data =
        UploadOutcome.localFail (-1) ↔
      (decodeInput file_data).length = 0 ∨
        (dims (decodeInput file_data)).1 = 0 ∨
        (dims (decodeInput file_data)).2 = 0) ∧
    (upload_file_video resource_path file_data =
        UploadOutcome.localFail (-1) ↔
      (decodeInput file_data).length = 0) := by
  constructor
  · simp only [upload_file_image]
    split_ifs with h1 h2
    · simp [h1]
    · simp [h1, h2]
    · simp [h1, h2]
  · simp only [upload_file_video]
    split_ifs with h1 <;> simp [h1]

/-- C5: _get_mp4_duration locates the first occurrence of the mvhd
marker, reads the big-endian 32-bit timescale at offset +16 and duration
at offset +20 from the marker start, and returns duration / timescale; an
absent marker, a truncated header, and a zero timescale all return 0
(every failure is caught, the function is total). -/
theorem c5_mp4_duration (data : List Nat) :
    (findSubstr mvhdTag data = none → get_mp4_duration data = 0) ∧
    (∀ pos, findSubstr mvhdTag data = some pos →
      (be32 (pySlice data (pos + 16) (pos + 20)) = none ∨
          be32 (pySlice data (pos + 20) (pos + 24)) = none →
        get_mp4_duration data = 0) ∧
      (∀ ts dur, be32 (pySlice data (pos + 16) (pos + 20)) = some ts →
        be32 (pySlice data (pos + 20) (pos + 24)) = some dur →
        (ts = 0 → get_mp4_duration data = 0) ∧
        (ts ≠ 0 →
          get_mp4_duration data = (dur : Rat) / (ts : Rat)))) := by
  have key : ∀ pos, findSubstr mvhdTag data = some pos →
      get_mp4_duration data =
        match be32 (pySlice data (pos + 16) (pos + 20)),
              be32 (pySlice data (pos + 20) (pos + 24)) with
        | some ts, some dur => if ts = 0 then 0 else (dur : Rat) / (ts : Rat)
        | _, _ => 0 := by
    intro pos hpos
    unfold get_mp4_duration
    rw [hpos]
  refine ⟨fun h => ?_, fun pos hpos =>
    ⟨fun hor => ?_, fun ts dur h1 h2 => ⟨fun h0 => ?_, fun h0 => ?_⟩⟩⟩
  · unfold get_mp4_duration
    rw [h]
  · rw [key pos hpos]
    rcases hx1 : be32 (pySlice data (pos + 16) (pos + 20)) with _ | ts <;>
      rcases hx2 : be32 (pySlice data (pos + 20) (pos + 24)) with _ | dur
    · rfl
    · rfl
    · rfl
    · rcases hor with h | h <;> simp_all
  · rw [key pos hpos, h1, h2]
    show (if ts = 0 then 0 else (dur : Rat) / (ts : Rat)) = 0
    rw [if_pos h0]
  · rw [key pos hpos, h1, h2]
    show (if ts = 0 then 0 else (dur : Rat) / (ts : Rat)) = (dur : Rat) / (ts : Rat)
    rw [if_neg h0]

/-- C5 witness: a synthetic mvhd box with timescale 1000 and duration
2500. -/
def mvhdSample : List Nat :=
  ascii "mvhd" ++ List.replicate 12 0 ++ [0, 0, 3, 232] ++ [0, 0, 9, 196]

/-- C5 witness at the synthetic mvhd box of the spec. -/
theorem c5_witness :
    findSubstr mvhdTag mvhdSample = some 0 ∧
    be32 (pySlice mvhdSample 16 20) = some 1000 ∧
    be32 (pySlice mvhdSample 20 24) = some 2500 ∧
    get_mp4_duration mvhdSample = ((2500 : Nat) : Rat) / ((1000 : Nat) : Rat) :=
  ⟨by rfl, by rfl, by rfl,
   (((c5_mp4_duration mvhdSample).2 0 (by rfl)).2 1000 2500 (by rfl)
      (by rfl)).2 (by decide)⟩

/-- C4 counterexample: a transport-level exception during the preflight
OPTIONS call is not caught by upload_file_options, so this run with a
successful path issuance ends before the upload POST instead of
proceeding to it. -/
theorem c4_counterexample :
    main_run_image ⟨some 200, ascii "/abc"⟩ .transportErr
      (fun _ => (10, 10)) [1, 2, 3] (.jsonBody 200) =
      ⟨true, false, .crashed⟩ := by
  rfl

/-- C4 amended: the preflight HTTP status code is never inspected, so
every status code proceeds to the upload step; but a transport-level
exception during the preflight propagates uncaught out of
upload_file_options and aborts the run before the upload POST. -/
theorem c4_preflight_status_nonfatal (resp : IssueResp)
    (dims : List Nat → Nat × Nat) (payload : List Nat) (ev : RespEvent)
    (n : Nat) (hne : payload ≠ []) (h200 : resp.code = some 200) :
    (main_run_image resp (.status n) dims payload ev).calledUpload = true ∧
    main_run_image resp .transportErr dims payload ev =
      ⟨true, false, .crashed⟩ := by
  have hlen : ¬ payload.length = 0 := by simpa using hne
  constructor <;> simp [main_run_image, hlen, h200]

/-- C4 witness at a concrete run. -/
theorem c4_witness :
    ([9] : List Nat) ≠ [] ∧
    (main_run_image ⟨some 200, ascii "/abc"⟩ (.status 403)
        (fun _ => (10, 10)) [9] (.jsonBody 200)).calledUpload = true :=
  ⟨by decide,
   (c4_preflight_status_nonfatal ⟨some 200, ascii "/abc"⟩
      (fun _ => (10, 10)) [9] (.jsonBody 200) 403 (by decide) rfl).1⟩

/-- C6: whenever the path-issuance response carries a code other than
200, both orchestrators stop without calling the preflight or the upload
and end with that code as the PathFailed outcome. -/
theorem c6_short_circuit (resp : IssueResp) (pf : PreflightResult)
    (dims : List Nat → Nat × Nat) (payload : List Nat) (ev : RespEvent)
    (c : Int) (hne : payload ≠ []) (hc : resp.code = some c)
    (h200 : c ≠ 200) :
    main_run_image resp pf dims payload ev =
      ⟨false, false, .pathFailed (some c)⟩ ∧
    main_run_video resp pf payload ev =
      ⟨false, false, .pathFailed (some c)⟩ := by
  have hlen : ¬ payload.length = 0 := by simpa using hne
  have hcode : ¬ resp.code = some 200 := by
    rw [hc]
    simp [h200]
  refine ⟨?_, ?_⟩
  · unfold main_run_image
    rw [if_neg hlen, if_neg hcode, hc]
  · unfold main_run_video
    rw [if_neg hlen, if_neg hcode, hc]

/-- C6 witness: a 500 path-issuance response at a concrete run. -/
theorem c6_witness :
    ([1, 2, 3] : List Nat) ≠ [] ∧ (500 : Int) ≠ 200 ∧
    main_run_image ⟨some 500, ascii "/abc"⟩ (.status 204)
      (fun _ => (10, 10)) [1, 2, 3] (.jsonBody 200) =
      ⟨false, false, .pathFailed (some 500)⟩ :=
  ⟨by decide, by decide,
   (c6_short_circuit ⟨some 500, ascii "/abc"⟩ (.status 204)
      (fun _ => (10, 10)) [1, 2, 3] (.jsonBody 200) 500 (by decide) rfl
      (by decide)).1⟩

/-- C7: the filesize field of the path-issuance body equals the byte
length of the original payload — the base64 encoding done by the client
followed by the decoding inside the filesize computation reproduces the
payload exactly. -/
theorem c7_filesize_roundtrip (filename : String) (channel_no : Int)
    (p : List Nat) (hp : validBytes p) :
    (issue_resource_path_image filename (.raw p) channel_no).filesize =
      p.length ∧
    (issue_resource_path_video filename (.raw p) channel_no).filesize =
      p.length := by
  have h := b64_roundtrip p hp
  constructor <;>
    simp [issue_resource_path_image, issue_resource_path_video, b64Of, h]

/-- C7 witness at a concrete payload. -/
theorem c7_witness :
    validBytes [137, 80, 78] ∧
    (issue_resource_path_image "image.png" (.raw [137, 80, 78])
        307464837).filesize = 3 :=
  ⟨by decide,
   (c7_filesize_roundtrip "image.png" 307464837 [137, 80, 78]
      (by decide)).1⟩

/-- C8: the image path-issuance body carries serviceId works, the channel
number, the filename, the filesize, msgType 11, channelType 10 and the
base64 payload as fileData; the video body carries the same fields except
that msgType is 14 and the fileData field is absent. -/
theorem c8_issue_body_fields (filename : String) (file_data : FileInput)
    (channel_no : Int) :
    (issue_resource_path_image filename file_data channel_no).serviceId =
      "works" ∧
    (issue_resource_path_image filename file_data channel_no).channelNo =
      channel_no ∧
    (issue_resource_path_image filename file_data channel_no).filename =
      filename ∧
    (issue_resource_path_image filename file_data channel_no).msgType = 11 ∧
    (issue_resource_path_image filename file_data channel_no).channelType =
      10 ∧
    (issue_resource_path_image filename file_data channel_no).fileData =
      some (b64Of file_data) ∧
    (issue_resource_path_video filename file_data channel_no).msgType = 14 ∧
    (issue_resource_path_video filename file_data channel_no).fileData =
      none ∧
    issue_resource_path_video filename file_data channel_no =
      { issue_resource_path_image filename file_data channel_no with
          msgType := 14, fileData := none } :=
  ⟨rfl, rfl, rfl, rfl, rfl, rfl, rfl, rfl, rfl⟩

/-- C9: when the upload POST completes but its body is not valid JSON,
upload_file reports the literal HTTP status code as the result code; when
the POST raises a transport-level exception, it reports -1 — for both
clients (the hypotheses keep the run past the local validation gates so
the POST is actually issued). -/
theorem c9_response_handling (dims : List Nat → Nat × Nat)
    (resource_path : List Nat) (file_data : FileInput) (s : Nat)
    (hlen : (decodeInput file_data).length ≠ 0)
    (hw : (dims (decodeInput file_data)).1 ≠ 0)
    (hh : (dims (decodeInput file_data)).2 ≠ 0) :
    upload_result_image dims resource_path file_data (.nonJson s) =
      (s : Int) ∧
    upload_result_image dims resource_path file_data .transportErr = -1 ∧
    upload_result_video resource_path file_data (.nonJson s) = (s : Int) ∧
    upload_result_video resource_path file_data .transportErr = -1 := by
  refine ⟨?_, ?_, ?_, ?_⟩ <;>
    simp [upload_result_image, upload_result_video, upload_file_image,
      upload_file_video, handleResp, hlen, hw, hh]

/-- C9 witness at a concrete run. -/
theorem c9_witness :
    (decodeInput (.raw [1, 2, 3])).length ≠ 0 ∧
    upload_result_video (ascii "/abc") (.raw [1, 2, 3]) (.nonJson 502) =
      502 ∧
    upload_result_video (ascii "/abc") (.raw [1, 2, 3]) .transportErr = -1 :=
  ⟨by decide,
   (c9_response_handling (fun _ => (10, 10)) (ascii "/abc") (.raw [1, 2, 3])
      502 (by decide) (by decide) (by decide)).2.2.1,
   (c9_response_handling (fun _ => (10, 10)) (ascii "/abc") (.raw [1, 2, 3])
      502 (by decide) (by decide) (by decide)).2.2.2⟩

/-- C10: handing a client the base64 string encoding of a payload is
indistinguishable from handing it the raw payload: the uploader
constructors decode string input back to the same bytes, so upload_file
and issue_resource_path build identical values in both runs. -/
theorem c10_base64_input_equiv (dims : List Nat → Nat × Nat)
    (resource_path : List Nat) (filename : String) (channel_no : Int)
    (p : List Nat) (hp : validBytes p) :
    upload_file_image dims resource_path (.b64 (b64encode p)) =
      upload_file_image dims resource_path (.raw p) ∧
    upload_file_video resource_path (.b64 (b64encode p)) =
      upload_file_video resource_path (.raw p) ∧
    issue_resource_path_image filename (.b64 (b64encode p)) channel_no =
      issue_resource_path_image filename (.raw p) channel_no ∧
    issue_resource_path_video filename (.b64 (b64encode p)) channel_no =
      issue_resource_path_video filename (.raw p) channel_no := by
  refine ⟨?_, ?_, ?_, ?_⟩ <;>
    simp [upload_file_image, upload_file_video, issue_resource_path_image,
      issue_resource_path_video, decodeInput, b64Of, b64_roundtrip p hp]

/-- C10 witness at a concrete payload. -/
theorem c10_witness :
    validBytes [7] ∧
    upload_file_video (ascii "/abc") (.b64 (b64encode [7])) =
      upload_file_video (ascii "/abc") (.raw [7]) :=
  ⟨by decide,
   (c10_base64_input_equiv (fun _ => (1, 1)) (ascii "/abc") "f" 1 [7]
      (by decide)).2.1⟩

/-- C3 counterexample: take the run whose original filename is image.png
and whose issued resource path is /abc (the path of the end-to-end
scenario in the spec).  The multipart body built by upload_file does not
contain the original filename at all; the filename it carries is the
basename of the resource path. -/
theorem c3_counterexample :
    (issue_resource_path_image "image.png" (.raw [137, 80, 78, 71])
        307464837).filename = "image.png" ∧
    isSub (ascii "image.png")
      (mkImageReq (ascii "/abc") [137, 80, 78, 71] 10 10).body = false ∧
    isSub (ascii "filename=\"abc\"")
      (mkImageReq (ascii "/abc") [137, 80, 78, 71] 10 10).body = true :=
  ⟨rfl, by decide, by decide⟩

/-- C3 amended: for every non-empty payload that does not itself open
with the Content-Disposition marker, the multipart form built by either
upload_file has exactly one Content-Disposition line; that line names the
part file and carries the basename of the resource path — not the
original upload filename — as the filename; the form opens and closes
with the declared boundary token, the body is the CRLF join of the form,
and the Content-Length value equals the exact byte length of the
serialized body. -/
theorem c3_multipart_structure (resource_path payload : List Nat)
    (width height : Nat) (rt : Rat) (hne : payload ≠ [])
    (hcd : cdPred payload = false) :
    ((mkImageReq resource_path payload width height).form.countP cdPred =
        1 ∧
      (mkImageReq resource_path payload width height).form.filter cdPred =
        [cdMark ++ cdMid ++ basenameB resource_path ++ ascii "\""] ∧
      (mkImageReq resource_path payload width height).form.head? =
        some (ascii "--" ++ imageBoundary) ∧
      (mkImageReq resource_path payload width height).form.getLast? =
        some (ascii "--" ++ imageBoundary ++ ascii "--") ∧
      (mkImageReq resource_path payload width height).body =
        joinCRLF (mkImageReq resource_path payload width height).form ∧
      (mkImageReq resource_path payload width height).contentLength =
        (mkImageReq resource_path payload width height).body.length) ∧
    ((mkVideoReq resource_path payload rt).form.countP cdPred = 1 ∧
      (mkVideoReq resource_path payload rt).form.filter cdPred =
        [cdMark ++ cdMid ++ basenameB resource_path ++ ascii "\""] ∧
      (mkVideoReq resource_path payload rt).form.head? =
        some (ascii "--" ++ videoBoundary) ∧
      (mkVideoReq resource_path payload rt).form.getLast? =
        some (ascii "--" ++ videoBoundary ++ ascii "--") ∧
      (mkVideoReq resource_path payload rt).body =
        joinCRLF (mkVideoReq resource_path payload rt).form ∧
      (mkVideoReq resource_path payload rt).contentLength =
        (mkVideoReq resource_path payload rt).body.length) := by
  have hi := mkForm_cd_count imageBoundary (basenameB resource_path)
    (ascii "image/png") payload (by decide) (by decide) (by decide) hcd
  have hv := mkForm_cd_count videoBoundary (basenameB resource_path)
    (ascii "video/mp4") payload (by decide) (by decide) (by decide) hcd
  exact ⟨⟨hi.1, hi.2, rfl, rfl, rfl, rfl⟩, ⟨hv.1, hv.2, rfl, rfl, rfl, rfl⟩⟩

/-- C3 witness at a concrete payload and resource path. -/
theorem c3_witness :
    ([137, 80] : List Nat) ≠ [] ∧ cdPred [137, 80] = false ∧
    (mkImageReq (ascii "/abc") [137, 80] 10 10).form.countP cdPred = 1 ∧
    (mkVideoReq (ascii "/abc") [137, 80] 0).form.countP cdPred = 1 :=
  ⟨by decide, by decide,
   (c3_multipart_structure (ascii "/abc") [137, 80] 10 10 0 (by decide)
      (by decide)).1.1,
   (c3_multipart_structure (ascii "/abc") [137, 80] 10 10 0 (by decide)
      (by decide)).2.1⟩
